import Mathlib

/-!
Shallow embedding of the Todo aggregate, validation service, error
catalogue and use-case orchestrator of the ddd-golang repository
(domain/model/todo.go, domain/model/error.go, domain/service
validation, application/usecase/todo_usecase.go, and the in-memory
repository infrastructure/repository/todo_repository_memory.go).

Modelling conventions:
- Go `time.Time` is abstracted as `Nat`; every operation that calls
  `time.Now()` takes the current instant as an explicit `now` argument.
- Go's `TodoStatus`/`TodoPriority` are string types; they are embedded
  as `String` with the same constant values.
- Pointer-receiver mutation is embedded as state passing: an entity
  operation returns `Except String Todo` (the Go `error` message on
  failure, the updated value on success; on failure the Go code leaves
  the receiver untouched, so the caller keeps the old value).
- `uuid.NewString()` is abstracted as an explicit `id` argument to the
  factory functions.
- Go `len` on the ASCII strings of interest equals `String.length`.
- The in-memory repository map is embedded as an association list keyed
  by the todo id; its `Save` never fails, matching the Go code.
-/

/-- Status constants from todo.go. -/
def TodoStatusPending : String := "pending"

def TodoStatusCompleted : String := "completed"

def TodoStatusArchived : String := "archived"

/-- Priority constants from todo.go. -/
def TodoPriorityLow : String := "low"

def TodoPriorityMedium : String := "medium"

def TodoPriorityHigh : String := "high"

/-- The Todo aggregate root (struct Todo in todo.go). -/
structure Todo where
  id : String
  title : String
  description : String
  status : String
  priority : String
  createdAt : Nat
  updatedAt : Nat
  completedAt : Option Nat
deriving DecidableEq, Repr

namespace Todo

/-- NewTodo from todo.go: fresh id, status pending, completedAt nil. -/
def NewTodo (id : String) (title : String) (description : String)
    (priority : String) (now : Nat) : Todo :=
  { id := id
    title := title
    description := description
    status := TodoStatusPending
    priority := priority
    createdAt := now
    updatedAt := now
    completedAt := none }

/-- NewTodoWithAllFields from todo.go. The source hardcodes
`status: TodoStatusPending`, ignoring the `status` argument. -/
def NewTodoWithAllFields (id : String) (title : String) (description : String)
    (status : String) (priority : String) (createdAt : Nat) (updatedAt : Nat)
    (completedAt : Option Nat) : Todo :=
  { id := id
    title := title
    description := description
    status := TodoStatusPending
    priority := priority
    createdAt := createdAt
    updatedAt := updatedAt
    completedAt := completedAt }

/-- NewTodoFromData from todo.go: reconstructs all fields verbatim. -/
def NewTodoFromData (id : String) (title : String) (description : String)
    (status : String) (priority : String) (createdAt : Nat) (updatedAt : Nat)
    (completedAt : Option Nat) : Todo :=
  { id := id
    title := title
    description := description
    status := status
    priority := priority
    createdAt := createdAt
    updatedAt := updatedAt
    completedAt := completedAt }

def isCompleted (t : Todo) : Bool := t.status == TodoStatusCompleted

def isPending (t : Todo) : Bool := t.status == TodoStatusPending

def isArchived (t : Todo) : Bool := t.status == TodoStatusArchived

/-- MarkAsCompleted from todo.go. -/
def markAsCompleted (t : Todo) (now : Nat) : Except String Todo :=
  if t.isCompleted then .error "todo is already completed"
  else if t.isArchived then .error "cannot complete an archived todo"
  else .ok { t with status := TodoStatusCompleted
                    completedAt := some now
                    updatedAt := now }

/-- MarkAsPending from todo.go: rejected only when currently completed. -/
def markAsPending (t : Todo) (now : Nat) : Except String Todo :=
  if t.isCompleted then .error "cannot mark completed todo as pending"
  else .ok { t with status := TodoStatusPending
                    completedAt := none
                    updatedAt := now }

/-- ArchiveTodo from todo.go: rejected only when already archived;
does not touch completedAt. -/
def archiveTodo (t : Todo) (now : Nat) : Except String Todo :=
  if t.isArchived then .error "todo is already archived"
  else .ok { t with status := TodoStatusArchived
                    updatedAt := now }

/-- UpdateTitle from todo.go (entity-level bounds: nonempty, <= 200). -/
def updateTitle (t : Todo) (newTitle : String) (now : Nat) : Except String Todo :=
  if newTitle == "" then .error "title cannot be empty"
  else if newTitle.length > 200 then .error "title cannot exceed 200 characters"
  else .ok { t with title := newTitle, updatedAt := now }

/-- UpdateDescription from todo.go. -/
def updateDescription (t : Todo) (newDescription : String) (now : Nat) :
    Except String Todo :=
  if newDescription.length > 1000 then
    .error "description cannot exceed 1000 characters"
  else .ok { t with description := newDescription, updatedAt := now }

/-- UpdatePriority from todo.go; TodoPriority is a Go string type, so the
argument may be any string and the default branch is reachable. -/
def updatePriority (t : Todo) (newPriority : String) (now : Nat) :
    Except String Todo :=
  if newPriority == TodoPriorityLow ∨ newPriority == TodoPriorityMedium ∨
      newPriority == TodoPriorityHigh then
    .ok { t with priority := newPriority, updatedAt := now }
  else .error "invalid priority level"

end Todo

/-- One entity operation together with the instant at which it runs;
used to quantify over arbitrary sequences of mutations. -/
inductive TodoOp where
  | markAsCompleted (now : Nat)
  | markAsPending (now : Nat)
  | archiveTodo (now : Nat)
  | updateTitle (s : String) (now : Nat)
  | updateDescription (s : String) (now : Nat)
  | updatePriority (p : String) (now : Nat)
deriving DecidableEq, Repr

/-- Run one operation; Go leaves the receiver unchanged when the
operation returns an error. -/
def applyOp (t : Todo) : TodoOp → Todo
  | .markAsCompleted now =>
    match t.markAsCompleted now with | .ok u => u | .error _ => t
  | .markAsPending now =>
    match t.markAsPending now with | .ok u => u | .error _ => t
  | .archiveTodo now =>
    match t.archiveTodo now with | .ok u => u | .error _ => t
  | .updateTitle s now =>
    match t.updateTitle s now with | .ok u => u | .error _ => t
  | .updateDescription s now =>
    match t.updateDescription s now with | .ok u => u | .error _ => t
  | .updatePriority p now =>
    match t.updatePriority p now with | .ok u => u | .error _ => t

/-- Run a sequence of entity operations. -/
def applyOps (t : Todo) (ops : List TodoOp) : Todo := ops.foldl applyOp t

/-- DomainError value object from error.go; `details` is the optional
string-keyed map, embedded as an association list (nil = none). -/
structure DomainError where
  errorCode : Nat
  httpStatus : Nat
  errorMessage : String
  internalReason : String
  details : List (String × String)
deriving DecidableEq, Repr

/-- Validation errors (1000-1999) from error.go. -/
def ErrInvalidTitle : DomainError :=
  ⟨1001, 400, "Invalid title", "Title validation failed", []⟩

def ErrInvalidDescription : DomainError :=
  ⟨1002, 400, "Invalid description", "Description validation failed", []⟩

def ErrInvalidPriority : DomainError :=
  ⟨1003, 400, "Invalid priority", "Priority must be low, medium, or high", []⟩

def ErrEmptyTitle : DomainError :=
  ⟨1004, 400, "Title cannot be empty", "Empty title provided", []⟩

def ErrTitleTooLong : DomainError :=
  ⟨1005, 400, "Title too long",
    "Title exceeds maximum length of 100 characters", [("max_length", "100")]⟩

/-- Not found errors (2000-2999) from error.go. -/
def ErrTodoNotFound : DomainError :=
  ⟨2001, 404, "Todo not found", "Todo with specified ID not found", []⟩

/-- Operation errors (3000-3999) from error.go. -/
def ErrCannotCompleteTodo : DomainError :=
  ⟨3001, 400, "Cannot complete todo", "Todo cannot be completed", []⟩

def ErrCannotArchiveTodo : DomainError :=
  ⟨3002, 400, "Cannot archive todo", "Todo cannot be archived", []⟩

/-- Repository errors (4000-4999) from error.go. -/
def ErrRepositoryNotInitialized : DomainError :=
  ⟨4001, 500, "Repository not initialized", "Repository is nil",
    [("operation", "list_todos")]⟩

def ErrFailedToSaveTodo : DomainError :=
  ⟨4002, 500, "Failed to save todo", "Database save operation failed", []⟩

def ErrFailedToSaveCompletedTodo : DomainError :=
  ⟨4003, 500, "Failed to save completed todo",
    "Database save operation failed for completed todo", []⟩

def ErrFailedToSaveArchivedTodo : DomainError :=
  ⟨4004, 500, "Failed to save archived todo",
    "Database save operation failed for archived todo", []⟩

def ErrFailedToRetrieveTodos : DomainError :=
  ⟨4005, 500, "Failed to retrieve todos",
    "Database retrieve operation failed", [("operation", "list_todos")]⟩

/-- HTTP/transport errors (5000-5999) from error.go. -/
def ErrInvalidJSON : DomainError :=
  ⟨5001, 400, "Invalid JSON", "JSON parsing failed", []⟩

/-- Test errors (9000-9999) from error.go. -/
def ErrTestError : DomainError :=
  ⟨9001, 400, "Test error message",
    "This is a test error for testing error handling", [("test", "true")]⟩

/-- Error categories of the catalogue in error.go, in source order. -/
inductive ErrorCategory where
  | validation
  | notFound
  | operation
  | repository
  | transport
  | test
deriving DecidableEq, Repr, Fintype

/-- The numeric range [lo, hi] the spec assigns to each category. -/
def ErrorCategory.range : ErrorCategory → Nat × Nat
  | .validation => (1000, 1999)
  | .notFound => (2000, 2999)
  | .operation => (3000, 3999)
  | .repository => (4000, 4999)
  | .transport => (5000, 5999)
  | .test => (9000, 9999)

/-- The fixed catalogue of predefined errors in error.go, each paired
with the category of the var block it is declared in. -/
def errorCatalogue : List (ErrorCategory × DomainError) :=
  [(.validation, ErrInvalidTitle),
   (.validation, ErrInvalidDescription),
   (.validation, ErrInvalidPriority),
   (.validation, ErrEmptyTitle),
   (.validation, ErrTitleTooLong),
   (.notFound, ErrTodoNotFound),
   (.operation, ErrCannotCompleteTodo),
   (.operation, ErrCannotArchiveTodo),
   (.repository, ErrRepositoryNotInitialized),
   (.repository, ErrFailedToSaveTodo),
   (.repository, ErrFailedToSaveCompletedTodo),
   (.repository, ErrFailedToSaveArchivedTodo),
   (.repository, ErrFailedToRetrieveTodos),
   (.transport, ErrInvalidJSON),
   (.test, ErrTestError)]

/-- Drop leading whitespace characters from a character list. -/
def dropLeadingSpace : List Char → List Char
  | [] => []
  | c :: cs => if c.isWhitespace then dropLeadingSpace cs else c :: cs

/-- Go strings.TrimSpace: remove leading and trailing whitespace
(embedded by structural recursion so that it evaluates; Lean's
Char.isWhitespace covers the whitespace of the strings at play). -/
def trimSpace (s : String) : String :=
  String.mk (dropLeadingSpace (dropLeadingSpace s.data.reverse).reverse)

/-- ValidateTitle from the TodoDomainService: blank after trimming,
then length > 100. -/
def ValidateTitle (title : String) : Option DomainError :=
  if trimSpace title == "" then some ErrEmptyTitle
  else if title.length > 100 then some ErrTitleTooLong
  else none

/-- ValidateDescription from the TodoDomainService. -/
def ValidateDescription (description : String) : Option DomainError :=
  if description.length > 1000 then some ErrInvalidDescription
  else none

/-- ValidatePriority from the TodoDomainService. -/
def ValidatePriority (priority : String) : Option DomainError :=
  if priority == "low" ∨ priority == "medium" ∨ priority == "high" then none
  else some ErrInvalidPriority

/-- ValidateCreateTodoCommand: title, then description, then priority,
short-circuiting on the first failure. -/
def ValidateCreateTodoCommand (title : String) (description : String)
    (priority : String) : Option DomainError :=
  match ValidateTitle title with
  | some e => some e
  | none =>
  match ValidateDescription description with
  | some e => some e
  | none => ValidatePriority priority

/-- ValidateUpdateTodoCommand: each field checked only when nonempty. -/
def ValidateUpdateTodoCommand (title : String) (description : String)
    (priority : String) : Option DomainError :=
  match (if title != "" then ValidateTitle title else none) with
  | some e => some e
  | none =>
  match (if description != "" then ValidateDescription description else none) with
  | some e => some e
  | none => if priority != "" then ValidatePriority priority else none

/-- The in-memory repository state: the map `todos` of
InMemoryTodoRepository embedded as an association list keyed by id. -/
abbrev Repo := List (String × Todo)

/-- FindByID: lookup in the map; Go returns a not-found error when the
key is absent, embedded as `none`. -/
def repoFind (r : Repo) (id : String) : Option Todo :=
  match r with
  | [] => none
  | (k, v) :: rest => if k == id then some v else repoFind rest id

/-- Save: insert or overwrite by id (Go map assignment); never fails. -/
def repoSave (r : Repo) (t : Todo) : Repo :=
  match r with
  | [] => [(t.id, t)]
  | (k, v) :: rest => if k == t.id then (k, t) :: rest else (k, v) :: repoSave rest t

/-- CreateTodoCommand from application/command (fields used by the
create use case). -/
structure CreateTodoCommand where
  title : String
  description : String
  priority : String
deriving DecidableEq, Repr

/-- UpdateTodoCommand from application/command (fields used by the
update use case). -/
structure UpdateTodoCommand where
  id : String
  title : String
  description : String
  priority : String
deriving DecidableEq, Repr

/-- The priority-string mapping inside CreateTodoUseCase: "low" and
"high" map to themselves, everything else to medium. -/
def mapCreatePriority (p : String) : String :=
  if p == "low" then TodoPriorityLow
  else if p == "high" then TodoPriorityHigh
  else TodoPriorityMedium

/-- CreateTodoUseCase from todo_usecase.go, run against the in-memory
repository (whose Save never fails, so the ErrFailedToSaveTodo branch
is not taken). `newId` stands for the generated UUID, `now` for
time.Now(). Returns the new id and repository, or the domain error. -/
def CreateTodoUseCase (r : Repo) (cmd : CreateTodoCommand) (newId : String)
    (now : Nat) : Except DomainError (String × Repo) :=
  match ValidateCreateTodoCommand cmd.title cmd.description cmd.priority with
  | some e => .error e
  | none =>
    let todo := Todo.NewTodo newId cmd.title cmd.description
      (mapCreatePriority cmd.priority) now
    .ok (todo.id, repoSave r todo)

/-- UpdateTodoUseCase from todo_usecase.go against the in-memory
repository: validate, fetch, conditionally mutate title, description
and priority, save. Returns the error (if any) and resulting state. -/
def UpdateTodoUseCase (r : Repo) (cmd : UpdateTodoCommand) (now : Nat) :
    Option DomainError × Repo :=
  match ValidateUpdateTodoCommand cmd.title cmd.description cmd.priority with
  | some e => (some e, r)
  | none =>
  match repoFind r cmd.id with
  | none => (some ErrTodoNotFound, r)
  | some todo0 =>
  match (if cmd.title != "" then todo0.updateTitle cmd.title now
         else .ok todo0) with
  | .error _ => (some ErrInvalidTitle, r)
  | .ok todo1 =>
  match (if cmd.description != "" then todo1.updateDescription cmd.description now
         else .ok todo1) with
  | .error _ => (some ErrInvalidDescription, r)
  | .ok todo2 =>
  if cmd.priority != "" then
    if cmd.priority == "low" ∨ cmd.priority == "high" ∨ cmd.priority == "medium" then
      match todo2.updatePriority cmd.priority now with
      | .error _ => (some ErrInvalidPriority, r)
      | .ok todo3 => (none, repoSave r todo3)
    else (some ErrInvalidPriority, r)
  else (none, repoSave r todo2)

/-- CompleteTodoUseCase from todo_usecase.go against the in-memory
repository. -/
def CompleteTodoUseCase (r : Repo) (id : String) (now : Nat) :
    Option DomainError × Repo :=
  match repoFind r id with
  | none => (some ErrTodoNotFound, r)
  | some todo =>
  match todo.markAsCompleted now with
  | .error _ => (some ErrCannotCompleteTodo, r)
  | .ok todo1 => (none, repoSave r todo1)

/-- ArchiveTodoUseCase from todo_usecase.go against the in-memory
repository. -/
def ArchiveTodoUseCase (r : Repo) (id : String) (now : Nat) :
    Option DomainError × Repo :=
  match repoFind r id with
  | none => (some ErrTodoNotFound, r)
  | some todo =>
  match todo.archiveTodo now with
  | .error _ => (some ErrCannotArchiveTodo, r)
  | .ok todo1 => (none, repoSave r todo1)

/-- GetTodoUseCase from todo_usecase.go: fetch only (the Go code then
projects the todo into a response DTO; the projection is field-for-field
and not needed by the claims). Reads never change the repository. -/
def GetTodoUseCase (r : Repo) (id : String) : Except DomainError Todo :=
  match repoFind r id with
  | none => .error ErrTodoNotFound
  | some todo => .ok todo

/-- A repository is well formed when every entry is keyed by the id of
the stored todo; every repository reachable through the Go code is,
since Save keys the map by todo.GetID(). -/
def RepoWF (r : Repo) : Prop := ∀ p ∈ r, (p.2).id = p.1

instance (r : Repo) : Decidable (RepoWF r) :=
  inferInstanceAs (Decidable (∀ p ∈ r, (p.2).id = p.1))

theorem repoFind_wf_id {r : Repo} {id : String} {t : Todo}
    (hwf : RepoWF r) (h : repoFind r id = some t) : t.id = id := by
  induction r with
  | nil => simp [repoFind] at h
  | cons p rest ih =>
    rw [repoFind] at h
    by_cases hk : p.1 == id
    · rw [if_pos hk] at h
      cases h
      have := hwf p (List.mem_cons_self p rest)
      rw [this]
      exact eq_of_beq hk
    · rw [if_neg hk] at h
      exact ih (fun q hq => hwf q (List.mem_cons_of_mem p hq)) h

theorem repoFind_save_self (r : Repo) (t : Todo) :
    repoFind (repoSave r t) t.id = some t := by
  induction r with
  | nil => simp [repoSave, repoFind]
  | cons p rest ih =>
    rw [repoSave]
    by_cases hk : p.1 == t.id
    · rw [if_pos hk, repoFind, if_pos hk]
    · rw [if_neg hk, repoFind, if_neg hk]
      exact ih

/-- The amended C1 invariant: `completedAt` is non-null when the status
is completed, and a non-null `completedAt` means the status is completed
or archived (archiving does not clear the completion timestamp). -/
def completedAtConsistent (t : Todo) : Prop :=
  (t.status = TodoStatusCompleted → t.completedAt ≠ none) ∧
  (t.completedAt ≠ none →
    t.status = TodoStatusCompleted ∨ t.status = TodoStatusArchived)

instance (t : Todo) : Decidable (completedAtConsistent t) :=
  inferInstanceAs (Decidable (And _ _))

theorem applyOp_completedAtConsistent {t : Todo} (op : TodoOp)
    (h : completedAtConsistent t) : completedAtConsistent (applyOp t op) := by
  obtain ⟨h1, h2⟩ := h
  cases op with
  | markAsCompleted now =>
    rw [applyOp, Todo.markAsCompleted]
    by_cases hc : t.isCompleted
    · simp [hc]; exact ⟨h1, h2⟩
    · by_cases ha : t.isArchived
      · simp [hc, ha]; exact ⟨h1, h2⟩
      · simp [hc, ha, completedAtConsistent]
  | markAsPending now =>
    rw [applyOp, Todo.markAsPending]
    by_cases hc : t.isCompleted
    · simp [hc]; exact ⟨h1, h2⟩
    · simp [hc, completedAtConsistent, TodoStatusPending, TodoStatusCompleted,
        TodoStatusArchived]
  | archiveTodo now =>
    rw [applyOp, Todo.archiveTodo]
    by_cases ha : t.isArchived
    · simp [ha]; exact ⟨h1, h2⟩
    · simp [ha, completedAtConsistent, TodoStatusArchived, TodoStatusCompleted]
  | updateTitle s now =>
    rw [applyOp, Todo.updateTitle]
    by_cases he : s == ""
    · simp [he]; exact ⟨h1, h2⟩
    · by_cases hl : s.length > 200
      · simp [he, hl]; exact ⟨h1, h2⟩
      · simp [he, hl, completedAtConsistent]; exact ⟨h1, h2⟩
  | updateDescription s now =>
    rw [applyOp, Todo.updateDescription]
    by_cases hl : s.length > 1000
    · simp [hl]; exact ⟨h1, h2⟩
    · simp [hl, completedAtConsistent]; exact ⟨h1, h2⟩
  | updatePriority p now =>
    rw [applyOp, Todo.updatePriority]
    by_cases hp : p == TodoPriorityLow ∨ p == TodoPriorityMedium ∨
        p == TodoPriorityHigh
    · simp only [if_pos hp]
      exact ⟨h1, h2⟩
    · simp only [if_neg hp]
      exact ⟨h1, h2⟩

theorem applyOps_completedAtConsistent {t : Todo} (ops : List TodoOp)
    (h : completedAtConsistent t) : completedAtConsistent (applyOps t ops) := by
  induction ops generalizing t with
  | nil => exact h
  | cons op rest ih =>
    rw [applyOps, List.foldl_cons]
    exact ih (applyOp_completedAtConsistent op h)

/-- C1 counterexample: starting from NewTodo, MarkAsCompleted then
ArchiveTodo yields an archived todo whose completedAt is still non-null,
so "completedAt is non-null iff status == completed" fails after
ArchiveTodo is called on a completed todo. -/
theorem C1_counterexample :
    ¬ ((applyOps (Todo.NewTodo "id1" "title" "desc" TodoPriorityMedium 0)
        [TodoOp.markAsCompleted 1, TodoOp.archiveTodo 2]).completedAt ≠ none ↔
       (applyOps (Todo.NewTodo "id1" "title" "desc" TodoPriorityMedium 0)
        [TodoOp.markAsCompleted 1, TodoOp.archiveTodo 2]).status =
        TodoStatusCompleted) := by
  decide

/-- C1 (amended): for every Todo built by NewTodo and mutated by any
sequence of entity operations (successful or failed), status completed
implies completedAt non-null, and completedAt non-null implies the
status is completed or archived; the reverse implication of the original
claim fails because ArchiveTodo preserves completedAt. -/
theorem C1_completedAt_invariant (id title description priority : String)
    (now : Nat) (ops : List TodoOp) :
    completedAtConsistent
      (applyOps (Todo.NewTodo id title description priority now) ops) := by
  apply applyOps_completedAtConsistent
  constructor
  · intro h
    exact absurd h (by simp [Todo.NewTodo, TodoStatusPending, TodoStatusCompleted])
  · intro h
    exact absurd rfl h

/-- C1 witness: the invariant instantiated on a concrete run that
completes and then archives a fresh todo. -/
theorem C1_completedAt_invariant_witness :
    completedAtConsistent
      (applyOps (Todo.NewTodo "id1" "title" "desc" TodoPriorityMedium 0)
        [TodoOp.markAsCompleted 1, TodoOp.archiveTodo 2]) :=
  C1_completedAt_invariant "id1" "title" "desc" TodoPriorityMedium 0
    [TodoOp.markAsCompleted 1, TodoOp.archiveTodo 2]

/-- C2 counterexample: MarkAsPending applied to an archived todo
succeeds and changes the status away from archived, so archived is not
terminal for the entity operations. -/
theorem C2_counterexample :
    (applyOps (Todo.NewTodoFromData "id1" "title" "desc" TodoStatusArchived
        TodoPriorityLow 0 0 none) [TodoOp.markAsPending 5]).status ≠
      TodoStatusArchived := by
  decide

/-- C2 (amended): on an archived todo, MarkAsCompleted and ArchiveTodo
fail with an error and leave the todo unchanged, but MarkAsPending
succeeds and resets the status to pending, so archived is not terminal. -/
theorem C2_archived_transitions (t : Todo) (now : Nat)
    (h : t.status = TodoStatusArchived) :
    t.markAsCompleted now = Except.error "cannot complete an archived todo" ∧
    t.archiveTodo now = Except.error "todo is already archived" ∧
    t.markAsPending now =
      Except.ok { t with status := TodoStatusPending, completedAt := none,
                         updatedAt := now } := by
  have hc : t.isCompleted = false := by
    simp only [Todo.isCompleted, h]; decide
  have ha : t.isArchived = true := by
    simp only [Todo.isArchived, h]; decide
  refine ⟨?_, ?_, ?_⟩
  · rw [Todo.markAsCompleted]
    simp [hc, ha]
  · rw [Todo.archiveTodo]
    simp [ha]
  · rw [Todo.markAsPending]
    simp [hc]

/-- C2 witness: the amended transition facts evaluated on a concrete
archived todo. -/
theorem C2_archived_transitions_witness :
    (Todo.NewTodoFromData "id1" "title" "desc" TodoStatusArchived
        TodoPriorityLow 0 0 none).markAsCompleted 5 =
      Except.error "cannot complete an archived todo" ∧
    (Todo.NewTodoFromData "id1" "title" "desc" TodoStatusArchived
        TodoPriorityLow 0 0 none).archiveTodo 5 =
      Except.error "todo is already archived" ∧
    (Todo.NewTodoFromData "id1" "title" "desc" TodoStatusArchived
        TodoPriorityLow 0 0 none).markAsPending 5 =
      Except.ok { Todo.NewTodoFromData "id1" "title" "desc" TodoStatusArchived
          TodoPriorityLow 0 0 none with
        status := TodoStatusPending, completedAt := none, updatedAt := 5 } :=
  C2_archived_transitions
    (Todo.NewTodoFromData "id1" "title" "desc" TodoStatusArchived
      TodoPriorityLow 0 0 none) 5 rfl

/-- C3 counterexample: MarkAsPending on a completed todo fails (the
entity rejects exactly the completed case), contradicting the claim
that it succeeds and clears completedAt. -/
theorem C3_counterexample :
    (Todo.NewTodoFromData "id1" "title" "desc" TodoStatusCompleted
        TodoPriorityLow 0 0 (some 3)).markAsPending 5 =
      Except.error "cannot mark completed todo as pending" := rfl

/-- C3 (amended): MarkAsPending fails with an error on every completed
todo (leaving it unchanged, since the Go method returns before mutating),
and succeeds on every non-completed todo, setting status to pending and
clearing completedAt. -/
theorem C3_markAsPending (t : Todo) (now : Nat) :
    (t.status = TodoStatusCompleted →
      t.markAsPending now = Except.error "cannot mark completed todo as pending") ∧
    (t.status ≠ TodoStatusCompleted →
      t.markAsPending now =
        Except.ok { t with status := TodoStatusPending, completedAt := none,
                           updatedAt := now }) := by
  constructor
  · intro h
    have hc : t.isCompleted = true := by
      simp only [Todo.isCompleted, h]; decide
    rw [Todo.markAsPending]
    simp [hc]
  · intro h
    have hc : t.isCompleted = false := by
      simp only [Todo.isCompleted]
      exact beq_eq_false_iff_ne.mpr h
    rw [Todo.markAsPending]
    simp [hc]

/-- C3 witness: both branches of the amended statement evaluated on
concrete completed and pending todos. -/
theorem C3_markAsPending_witness :
    (Todo.NewTodoFromData "id1" "t" "d" TodoStatusCompleted TodoPriorityLow
        0 0 (some 3)).markAsPending 5 =
      Except.error "cannot mark completed todo as pending" ∧
    (Todo.NewTodoFromData "id2" "t" "d" TodoStatusPending TodoPriorityLow
        0 0 none).markAsPending 5 =
      Except.ok { Todo.NewTodoFromData "id2" "t" "d" TodoStatusPending
          TodoPriorityLow 0 0 none with
        status := TodoStatusPending, completedAt := none, updatedAt := 5 } :=
  ⟨(C3_markAsPending (Todo.NewTodoFromData "id1" "t" "d" TodoStatusCompleted
      TodoPriorityLow 0 0 (some 3)) 5).1 rfl,
   (C3_markAsPending (Todo.NewTodoFromData "id2" "t" "d" TodoStatusPending
      TodoPriorityLow 0 0 none) 5).2 (by decide)⟩

/-- C10: NewTodoWithAllFields hardcodes status pending, ignoring the
status argument (even completed or archived) while preserving every
other supplied field; NewTodoFromData preserves the supplied status. -/
theorem C10_constructors (id title description status priority : String)
    (createdAt updatedAt : Nat) (completedAt : Option Nat) :
    Todo.NewTodoWithAllFields id title description status priority
        createdAt updatedAt completedAt =
      { id := id, title := title, description := description,
        status := TodoStatusPending, priority := priority,
        createdAt := createdAt, updatedAt := updatedAt,
        completedAt := completedAt } ∧
    Todo.NewTodoFromData id title description status priority
        createdAt updatedAt completedAt =
      { id := id, title := title, description := description,
        status := status, priority := priority,
        createdAt := createdAt, updatedAt := updatedAt,
        completedAt := completedAt } :=
  ⟨rfl, rfl⟩

/-- C4 counterexample: creating with valid title and description but an
unspecified (empty) priority string fails with ErrInvalidPriority
instead of succeeding with priority medium. -/
theorem C4_counterexample :
    CreateTodoUseCase [] ⟨"Buy milk", "2 liters", ""⟩ "id1" 0 =
      Except.error ErrInvalidPriority := rfl

/-- C4 (amended): for valid title and description, an unspecified or
unrecognized priority string is rejected by CreateTodoUseCase with
ErrInvalidPriority (validation runs before the mapping), while the
mapping itself would send any string other than "low" and "high" to
medium — that defaulting branch is unreachable for unrecognized values
through the create path. -/
theorem C4_create_rejects_bad_priority (r : Repo) (cmd : CreateTodoCommand)
    (newId : String) (now : Nat)
    (ht : ValidateTitle cmd.title = none)
    (hd : ValidateDescription cmd.description = none)
    (hp1 : cmd.priority ≠ "low") (hp2 : cmd.priority ≠ "medium")
    (hp3 : cmd.priority ≠ "high") :
    CreateTodoUseCase r cmd newId now = Except.error ErrInvalidPriority ∧
    mapCreatePriority cmd.priority = TodoPriorityMedium := by
  have hv : ValidatePriority cmd.priority = some ErrInvalidPriority := by
    rw [ValidatePriority, if_neg]
    simp [hp1, hp2, hp3]
  constructor
  · rw [CreateTodoUseCase, ValidateCreateTodoCommand, ht, hd, hv]
  · rw [mapCreatePriority, if_neg (by simp [hp1]), if_neg (by simp [hp3])]

/-- C4 witness: the amended statement evaluated on a concrete command
with empty priority against the empty repository. -/
theorem C4_create_rejects_bad_priority_witness :
    CreateTodoUseCase [] ⟨"Buy milk", "2 liters", ""⟩ "id1" 0 =
      Except.error ErrInvalidPriority ∧
    mapCreatePriority "" = TodoPriorityMedium :=
  C4_create_rejects_bad_priority [] ⟨"Buy milk", "2 liters", ""⟩ "id1" 0
    rfl rfl (by decide) (by decide) (by decide)

/-- C5: on a stored completed todo, CompleteTodoUseCase fails with the
operation error ErrCannotCompleteTodo and leaves the repository (hence
the stored status) unchanged while ArchiveTodoUseCase succeeds; on a
stored archived todo, CompleteTodoUseCase fails with
ErrCannotCompleteTodo and ArchiveTodoUseCase fails with
ErrCannotArchiveTodo, both leaving the repository unchanged. -/
theorem C5_complete_archive_sequences (r : Repo) (id : String) (t : Todo)
    (now : Nat) (hfind : repoFind r id = some t) :
    (t.status = TodoStatusCompleted →
      CompleteTodoUseCase r id now = (some ErrCannotCompleteTodo, r) ∧
      repoFind (CompleteTodoUseCase r id now).2 id = some t ∧
      (ArchiveTodoUseCase r id now).1 = none) ∧
    (t.status = TodoStatusArchived →
      CompleteTodoUseCase r id now = (some ErrCannotCompleteTodo, r) ∧
      ArchiveTodoUseCase r id now = (some ErrCannotArchiveTodo, r)) := by
  constructor
  · intro h
    have hc : t.isCompleted = true := by
      simp only [Todo.isCompleted, h]; decide
    have ha : t.isArchived = false := by
      simp only [Todo.isArchived, h]; decide
    have hcomp : CompleteTodoUseCase r id now = (some ErrCannotCompleteTodo, r) := by
      simp [CompleteTodoUseCase, hfind, Todo.markAsCompleted, hc]
    refine ⟨hcomp, ?_, ?_⟩
    · rw [hcomp]
      exact hfind
    · simp [ArchiveTodoUseCase, hfind, Todo.archiveTodo, ha]
  · intro h
    have hc : t.isCompleted = false := by
      simp only [Todo.isCompleted, h]; decide
    have ha : t.isArchived = true := by
      simp only [Todo.isArchived, h]; decide
    constructor
    · simp [CompleteTodoUseCase, hfind, Todo.markAsCompleted, hc, ha]
    · simp [ArchiveTodoUseCase, hfind, Todo.archiveTodo, ha]

/-- C5 witness: both branches evaluated on concrete one-entry
repositories holding a completed and an archived todo. -/
theorem C5_complete_archive_sequences_witness :
    (CompleteTodoUseCase [("a", Todo.NewTodoFromData "a" "t" "d"
        TodoStatusCompleted TodoPriorityMedium 0 0 (some 0))] "a" 7 =
      (some ErrCannotCompleteTodo,
        [("a", Todo.NewTodoFromData "a" "t" "d" TodoStatusCompleted
          TodoPriorityMedium 0 0 (some 0))]) ∧
      repoFind (CompleteTodoUseCase [("a", Todo.NewTodoFromData "a" "t" "d"
        TodoStatusCompleted TodoPriorityMedium 0 0 (some 0))] "a" 7).2 "a" =
        some (Todo.NewTodoFromData "a" "t" "d" TodoStatusCompleted
          TodoPriorityMedium 0 0 (some 0)) ∧
      (ArchiveTodoUseCase [("a", Todo.NewTodoFromData "a" "t" "d"
        TodoStatusCompleted TodoPriorityMedium 0 0 (some 0))] "a" 7).1 = none) ∧
    (CompleteTodoUseCase [("b", Todo.NewTodoFromData "b" "t" "d"
        TodoStatusArchived TodoPriorityMedium 0 0 none)] "b" 7 =
      (some ErrCannotCompleteTodo,
        [("b", Todo.NewTodoFromData "b" "t" "d" TodoStatusArchived
          TodoPriorityMedium 0 0 none)]) ∧
      ArchiveTodoUseCase [("b", Todo.NewTodoFromData "b" "t" "d"
        TodoStatusArchived TodoPriorityMedium 0 0 none)] "b" 7 =
      (some ErrCannotArchiveTodo,
        [("b", Todo.NewTodoFromData "b" "t" "d" TodoStatusArchived
          TodoPriorityMedium 0 0 none)])) :=
  ⟨(C5_complete_archive_sequences
      [("a", Todo.NewTodoFromData "a" "t" "d" TodoStatusCompleted
        TodoPriorityMedium 0 0 (some 0))] "a"
      (Todo.NewTodoFromData "a" "t" "d" TodoStatusCompleted TodoPriorityMedium
        0 0 (some 0)) 7 rfl).1 rfl,
   (C5_complete_archive_sequences
      [("b", Todo.NewTodoFromData "b" "t" "d" TodoStatusArchived
        TodoPriorityMedium 0 0 none)] "b"
      (Todo.NewTodoFromData "b" "t" "d" TodoStatusArchived TodoPriorityMedium
        0 0 none) 7 rfl).2 rfl⟩

theorem validateUpdate_none_of_partial {title description priority : String}
    (hT : title = "") (hD : description.length ≤ 1000)
    (hP : priority = "" ∨ priority = "low" ∨ priority = "medium" ∨
      priority = "high") :
    ValidateUpdateTodoCommand title description priority = none := by
  have hD' : ¬ (description.length > 1000) := by omega
  rcases hP with hP | hP | hP | hP <;>
    simp [ValidateUpdateTodoCommand, ValidateDescription, ValidatePriority,
      hT, hD', hP]

theorem updateUseCase_partial_shape (r : Repo) (cmd : UpdateTodoCommand)
    (now : Nat) (t0 : Todo) (hfind : repoFind r cmd.id = some t0)
    (hT : cmd.title = "") (hD : cmd.description.length ≤ 1000)
    (hP : cmd.priority = "" ∨ cmd.priority = "low" ∨ cmd.priority = "medium" ∨
      cmd.priority = "high") :
    ∃ t2, UpdateTodoUseCase r cmd now = (none, repoSave r t2) ∧
      t2.title = t0.title ∧ t2.id = t0.id := by
  have hv := validateUpdate_none_of_partial hT hD hP
  have hD' : ¬ (cmd.description.length > 1000) := by omega
  rcases hP with hP | hP | hP | hP <;> by_cases hDe : cmd.description = "" <;>
    (simp only [hT, hP] at hv;
     simp [UpdateTodoUseCase, hv, hfind, hT, hP, hDe, Todo.updateDescription,
       Todo.updatePriority, TodoPriorityLow, TodoPriorityMedium,
       TodoPriorityHigh, hD'];
     exact ⟨_, rfl, rfl, rfl⟩)

/-- C6: on a well-formed repository, UpdateTodoUseCase with an empty
title field (and valid or absent description and priority) succeeds and
leaves the stored title unchanged, while UpdateTodoUseCase with a
250-character title fails with a validation error (1000-range code) and
returns the repository unmodified (validation short-circuits before any
fetch or save). -/
theorem C6_update_partial_semantics (r : Repo) (cmd : UpdateTodoCommand)
    (now : Nat) :
    (∀ t0 : Todo, RepoWF r → repoFind r cmd.id = some t0 → cmd.title = "" →
      cmd.description.length ≤ 1000 →
      (cmd.priority = "" ∨ cmd.priority = "low" ∨ cmd.priority = "medium" ∨
        cmd.priority = "high") →
      (UpdateTodoUseCase r cmd now).1 = none ∧
      ∃ t1, repoFind (UpdateTodoUseCase r cmd now).2 cmd.id = some t1 ∧
        t1.title = t0.title) ∧
    (cmd.title.length = 250 →
      ∃ e, UpdateTodoUseCase r cmd now = (some e, r) ∧
        1000 ≤ e.errorCode ∧ e.errorCode ≤ 1999) := by
  constructor
  · intro t0 hwf hfind hT hD hP
    obtain ⟨t2, hrun, htitle, hid⟩ :=
      updateUseCase_partial_shape r cmd now t0 hfind hT hD hP
    have hid0 : t0.id = cmd.id := repoFind_wf_id hwf hfind
    constructor
    · rw [hrun]
    · refine ⟨t2, ?_, htitle⟩
      rw [hrun]
      have := repoFind_save_self r t2
      rwa [hid, hid0] at this
  · intro hlen
    have hne : cmd.title ≠ "" := by
      intro h
      rw [h] at hlen
      simp at hlen
    have h100 : cmd.title.length > 100 := by omega
    by_cases htr : trimSpace cmd.title = ""
    · refine ⟨ErrEmptyTitle, ?_, by decide, by decide⟩
      simp [UpdateTodoUseCase, ValidateUpdateTodoCommand, ValidateTitle,
        hne, htr]
    · refine ⟨ErrTitleTooLong, ?_, by decide, by decide⟩
      simp [UpdateTodoUseCase, ValidateUpdateTodoCommand, ValidateTitle,
        hne, htr, h100]

set_option maxRecDepth 8192 in
/-- C6 witness: the partial-update success on a concrete stored todo
with an empty title in the command, and the validation failure with a
concrete 250-character title, both against concrete repositories. -/
theorem C6_update_partial_semantics_witness :
    ((UpdateTodoUseCase
        [("a", Todo.NewTodoFromData "a" "Old title" "" TodoStatusPending
          TodoPriorityMedium 0 0 none)]
        ⟨"a", "", "new description", "high"⟩ 3).1 = none ∧
      ∃ t1, repoFind (UpdateTodoUseCase
        [("a", Todo.NewTodoFromData "a" "Old title" "" TodoStatusPending
          TodoPriorityMedium 0 0 none)]
        ⟨"a", "", "new description", "high"⟩ 3).2
          (UpdateTodoCommand.id ⟨"a", "", "new description", "high"⟩) =
          some t1 ∧
        t1.title = (Todo.NewTodoFromData "a" "Old title" "" TodoStatusPending
          TodoPriorityMedium 0 0 none).title) ∧
    (∃ e, UpdateTodoUseCase
        [("a", Todo.NewTodoFromData "a" "Old title" "" TodoStatusPending
          TodoPriorityMedium 0 0 none)]
        ⟨"a", "aaaaaaaaaaaaaaaaaaaaaaaaaaaaaaaaaaaaaaaaaaaaaaaaaaaaaaaaaaaaaaaaaaaaaaaaaaaaaaaaaaaaaaaaaaaaaaaaaaaaaaaaaaaaaaaaaaaaaaaaaaaaaaaaaaaaaaaaaaaaaaaaaaaaaaaaaaaaaaaaaaaaaaaaaaaaaaaaaaaaaaaaaaaaaaaaaaaaaaaaaaaaaaaaaaaaaaaaaaaaaaaaaaaaaaaaaaaaaaaaaaaaaaaaaa", "", ""⟩ 3 =
        (some e,
          [("a", Todo.NewTodoFromData "a" "Old title" "" TodoStatusPending
            TodoPriorityMedium 0 0 none)]) ∧
      1000 ≤ e.errorCode ∧ e.errorCode ≤ 1999) :=
  ⟨(C6_update_partial_semantics
      [("a", Todo.NewTodoFromData "a" "Old title" "" TodoStatusPending
        TodoPriorityMedium 0 0 none)]
      ⟨"a", "", "new description", "high"⟩ 3).1
    (Todo.NewTodoFromData "a" "Old title" "" TodoStatusPending
      TodoPriorityMedium 0 0 none)
    (by decide) rfl rfl (by decide) (Or.inr (Or.inr (Or.inr rfl))),
   (C6_update_partial_semantics
      [("a", Todo.NewTodoFromData "a" "Old title" "" TodoStatusPending
        TodoPriorityMedium 0 0 none)]
      ⟨"a", "aaaaaaaaaaaaaaaaaaaaaaaaaaaaaaaaaaaaaaaaaaaaaaaaaaaaaaaaaaaaaaaaaaaaaaaaaaaaaaaaaaaaaaaaaaaaaaaaaaaaaaaaaaaaaaaaaaaaaaaaaaaaaaaaaaaaaaaaaaaaaaaaaaaaaaaaaaaaaaaaaaaaaaaaaaaaaaaaaaaaaaaaaaaaaaaaaaaaaaaaaaaaaaaaaaaaaaaaaaaaaaaaaaaaaaaaaaaaaaaaaaaaaaaaaa", "", ""⟩ 3).2 (by decide)⟩

/-- C7: for an id absent from the repository, GetTodoUseCase,
UpdateTodoUseCase (with otherwise valid fields), CompleteTodoUseCase
and ArchiveTodoUseCase each fail with ErrTodoNotFound (code 2001) and
return the repository unchanged. -/
theorem C7_not_found_behaviour (r : Repo) (id : String) (now : Nat)
    (cmd : UpdateTodoCommand) (hfind : repoFind r id = none)
    (hcmd : cmd.id = id)
    (hv : ValidateUpdateTodoCommand cmd.title cmd.description cmd.priority =
      none) :
    GetTodoUseCase r id = Except.error ErrTodoNotFound ∧
    UpdateTodoUseCase r cmd now = (some ErrTodoNotFound, r) ∧
    CompleteTodoUseCase r id now = (some ErrTodoNotFound, r) ∧
    ArchiveTodoUseCase r id now = (some ErrTodoNotFound, r) ∧
    ErrTodoNotFound.errorCode = 2001 := by
  refine ⟨?_, ?_, ?_, ?_, rfl⟩
  · simp [GetTodoUseCase, hfind]
  · have hfind2 : repoFind r cmd.id = none := by rw [hcmd]; exact hfind
    simp [UpdateTodoUseCase, hv, hfind2]
  · simp [CompleteTodoUseCase, hfind]
  · simp [ArchiveTodoUseCase, hfind]

/-- C7 witness: the not-found behaviour evaluated on the empty
repository with a concrete id and a valid update command. -/
theorem C7_not_found_behaviour_witness :
    GetTodoUseCase [] "missing" = Except.error ErrTodoNotFound ∧
    UpdateTodoUseCase [] ⟨"missing", "New title", "", "low"⟩ 4 =
      (some ErrTodoNotFound, []) ∧
    CompleteTodoUseCase [] "missing" 4 = (some ErrTodoNotFound, []) ∧
    ArchiveTodoUseCase [] "missing" 4 = (some ErrTodoNotFound, []) ∧
    ErrTodoNotFound.errorCode = 2001 :=
  C7_not_found_behaviour [] "missing" 4 ⟨"missing", "New title", "", "low"⟩
    rfl rfl (by decide)

/-- C8: ValidateCreateTodoCommand runs title, description, priority in
that fixed order with short-circuiting: a blank title yields
ErrEmptyTitle regardless of length, a non-blank over-long title yields
ErrTitleTooLong, an over-long description yields ErrInvalidDescription
only once the title passed, an unrecognized priority yields
ErrInvalidPriority only once title and description passed, and the
result is none exactly when the title is non-blank after trimming and
at most 100 characters, the description is at most 1000 characters, and
the priority is one of low, medium, high. -/
theorem C8_validate_create (title description priority : String) :
    (trimSpace title = "" →
      ValidateCreateTodoCommand title description priority =
        some ErrEmptyTitle) ∧
    (trimSpace title ≠ "" → title.length > 100 →
      ValidateCreateTodoCommand title description priority =
        some ErrTitleTooLong) ∧
    (trimSpace title ≠ "" → title.length ≤ 100 → description.length > 1000 →
      ValidateCreateTodoCommand title description priority =
        some ErrInvalidDescription) ∧
    (trimSpace title ≠ "" → title.length ≤ 100 → description.length ≤ 1000 →
      priority ≠ "low" → priority ≠ "medium" → priority ≠ "high" →
      ValidateCreateTodoCommand title description priority =
        some ErrInvalidPriority) ∧
    (ValidateCreateTodoCommand title description priority = none ↔
      trimSpace title ≠ "" ∧ title.length ≤ 100 ∧ description.length ≤ 1000 ∧
      (priority = "low" ∨ priority = "medium" ∨ priority = "high")) := by
  refine ⟨?_, ?_, ?_, ?_, ?_⟩
  · intro h1
    simp [ValidateCreateTodoCommand, ValidateTitle, h1]
  · intro h1 h2
    simp [ValidateCreateTodoCommand, ValidateTitle, h1, h2]
  · intro h1 h2 h3
    have h2' : ¬ (title.length > 100) := by omega
    simp [ValidateCreateTodoCommand, ValidateTitle, ValidateDescription,
      h1, h2', h3]
  · intro h1 h2 h3 hp1 hp2 hp3
    have h2' : ¬ (title.length > 100) := by omega
    have h3' : ¬ (description.length > 1000) := by omega
    simp [ValidateCreateTodoCommand, ValidateTitle, ValidateDescription,
      ValidatePriority, h1, h2', h3', hp1, hp2, hp3]
  · by_cases h1 : trimSpace title = ""
    · simp [ValidateCreateTodoCommand, ValidateTitle, h1]
    · by_cases h2 : title.length > 100
      · simp [ValidateCreateTodoCommand, ValidateTitle, h1, h2]
      · by_cases h3 : description.length > 1000
        · simp [ValidateCreateTodoCommand, ValidateTitle,
            ValidateDescription, h1, h2, h3]
        · have hred : ValidateCreateTodoCommand title description priority =
              ValidatePriority priority := by
            simp [ValidateCreateTodoCommand, ValidateTitle,
              ValidateDescription, h1, h2, h3]
          have hiff : ValidatePriority priority = none ↔
              (priority = "low" ∨ priority = "medium" ∨ priority = "high") := by
            rw [ValidatePriority]
            by_cases hc : priority == "low" ∨ priority == "medium" ∨
                priority == "high"
            · rw [if_pos hc]
              simp only [beq_iff_eq] at hc
              exact iff_of_true rfl hc
            · rw [if_neg hc]
              simp only [beq_iff_eq] at hc
              exact iff_of_false (by simp) hc
          rw [hred, hiff]
          constructor
          · intro h
            exact ⟨h1, by omega, by omega, h⟩
          · intro h
            exact h.2.2.2

/-- C8 witness: the blank-title branch (on a blank title longer than
100 characters), the priority branch and the success case evaluated on
concrete inputs. -/
theorem C8_validate_create_witness :
    ValidateCreateTodoCommand
        (String.mk (List.replicate 120 ' ')) "d" "low" =
      some ErrEmptyTitle ∧
    ValidateCreateTodoCommand "Buy milk" "2 liters" "urgent" =
      some ErrInvalidPriority ∧
    ValidateCreateTodoCommand "Buy milk" "2 liters" "high" = none :=
  ⟨(C8_validate_create (String.mk (List.replicate 120 ' ')) "d" "low").1
      (by decide),
   (C8_validate_create "Buy milk" "2 liters" "urgent").2.2.2.1
      (by decide) (by decide) (by decide) (by decide) (by decide) (by decide),
   ((C8_validate_create "Buy milk" "2 liters" "high").2.2.2.2).mpr
      ⟨by decide, by decide, by decide, Or.inr (Or.inr rfl)⟩⟩

/-- C9: every predefined error of the catalogue carries a code inside
the numeric range of its category, the six category ranges are pairwise
disjoint, and every illegal state transition reported by
CompleteTodoUseCase or ArchiveTodoUseCase on a stored todo carries a
3000-range (operation) code. -/
theorem C9_error_taxonomy :
    (∀ p ∈ errorCatalogue,
      (p.1.range).1 ≤ (p.2).errorCode ∧ (p.2).errorCode ≤ (p.1.range).2) ∧
    (∀ c1 c2 : ErrorCategory, c1 ≠ c2 →
      (c1.range).2 < (c2.range).1 ∨ (c2.range).2 < (c1.range).1) ∧
    (∀ (r r2 : Repo) (id : String) (t : Todo) (now : Nat) (e : DomainError),
      repoFind r id = some t → CompleteTodoUseCase r id now = (some e, r2) →
      3000 ≤ e.errorCode ∧ e.errorCode ≤ 3999) ∧
    (∀ (r r2 : Repo) (id : String) (t : Todo) (now : Nat) (e : DomainError),
      repoFind r id = some t → ArchiveTodoUseCase r id now = (some e, r2) →
      3000 ≤ e.errorCode ∧ e.errorCode ≤ 3999) := by
  refine ⟨by decide, by decide, ?_, ?_⟩
  · intro r r2 id t now e hfind hrun
    simp only [CompleteTodoUseCase, hfind] at hrun
    cases hm : t.markAsCompleted now with
    | error msg =>
      rw [hm] at hrun
      simp only [Prod.mk.injEq, Option.some.injEq] at hrun
      rw [← hrun.1]
      decide
    | ok u =>
      rw [hm] at hrun
      simp at hrun
  · intro r r2 id t now e hfind hrun
    simp only [ArchiveTodoUseCase, hfind] at hrun
    cases hm : t.archiveTodo now with
    | error msg =>
      rw [hm] at hrun
      simp only [Prod.mk.injEq, Option.some.injEq] at hrun
      rw [← hrun.1]
      decide
    | ok u =>
      rw [hm] at hrun
      simp at hrun

/-- C9 witness: the catalogue checks instantiated, and the operation
range fact applied to a concrete illegal completion of a stored
archived todo. -/
theorem C9_error_taxonomy_witness :
    3000 ≤ ErrCannotCompleteTodo.errorCode ∧
    ErrCannotCompleteTodo.errorCode ≤ 3999 :=
  C9_error_taxonomy.2.2.1
    [("b", Todo.NewTodoFromData "b" "t" "d" TodoStatusArchived
      TodoPriorityMedium 0 0 none)]
    [("b", Todo.NewTodoFromData "b" "t" "d" TodoStatusArchived
      TodoPriorityMedium 0 0 none)]
    "b"
    (Todo.NewTodoFromData "b" "t" "d" TodoStatusArchived TodoPriorityMedium
      0 0 none)
    7 ErrCannotCompleteTodo rfl rfl
